import Mathlib

/-!
Verification of `scripts/fetch_captions.py`.

The script fetches a caption transcript for a video identifier from an
external transcript-retrieval capability, maps each returned record to an
object with keys `start`, `dur`, `text`, prints the resulting list as one
JSON array on standard output, and on any exception prints an error object
on standard error and exits with status 1.  A missing command-line argument
produces a usage error without calling the external capability.

The external capability is modelled as an oracle
`Upstream : String → Except String FetchedTranscript`: given a video
identifier it either raises an exception carrying a message, or returns a
transcript whose iteration yields a list of snippets and may itself raise
mid-iteration (field `iterError`).  Process effects are recorded in
`ProcResult`: the list of identifiers passed to the capability, the JSON
values printed on stdout and stderr (one entry per `print` call), and the
exit code.
-/

namespace FetchCaptions

/-- One record yielded by iterating the fetched transcript.  The list
comprehension in `fetch` reads the attributes `s.start`, `s.duration`,
`s.text` of each record. -/
structure TranscriptSnippet where
  start : Rat
  duration : Rat
  text : String
deriving DecidableEq, Repr

/-- The value returned by the upstream call `ytt_api.fetch(video_id)`.
Iterating it yields `snippets` in order; if `iterError = some m`, iteration
raises an exception with message `m` before completing, so the list
comprehension consuming it raises instead of producing a list. -/
structure FetchedTranscript where
  snippets : List TranscriptSnippet
  iterError : Option String
deriving DecidableEq, Repr

/-- JSON values, as produced by `json.dumps` arguments in the script. -/
inductive JsonValue where
  | num (q : Rat)
  | str (s : String)
  | arr (elems : List JsonValue)
  | obj (fields : List (String × JsonValue))

/-- Observable effects of one process invocation: identifiers passed to the
external transcript-retrieval capability (in call order), JSON values
printed to stdout and to stderr (one per `print` call), and the exit code. -/
structure ProcResult where
  calls : List String
  stdout : List JsonValue
  stderr : List JsonValue
  exitCode : Nat

/-- The external transcript-retrieval capability: for an identifier it
either raises (message) or returns a transcript. -/
abbrev Upstream := String → Except String FetchedTranscript

/-- The dictionary built for one snippet in the list comprehension
(line 13 of the script). -/
def segJson (s : TranscriptSnippet) : JsonValue :=
  JsonValue.obj
    [("start", JsonValue.num s.start), ("dur", JsonValue.num s.duration),
     ("text", JsonValue.str s.text)]

/-- The error object printed on stderr: the dictionary with single key
`error` (lines 18 and 23). -/
def errorReport (m : String) : JsonValue :=
  JsonValue.obj [("error", JsonValue.str m)]

/-- The list comprehension over the fetched transcript (lines 12-15): if
iteration raises, the exception propagates; otherwise every snippet is
mapped to its three-field dictionary, in order. -/
def buildSegments (t : FetchedTranscript) : Except String (List JsonValue) :=
  match t.iterError with
  | some m => Except.error m
  | none => Except.ok (t.snippets.map segJson)

/-- The body of the `try` block (lines 11-15): call the capability, then
run the list comprehension; either step may raise. -/
def tryBody (upstream : Upstream) (video_id : String) : Except String (List JsonValue) :=
  (upstream video_id).bind buildSegments

/-- `fetch` (lines 8-19): on success print the full segment array on stdout
and finish with exit code 0; on any exception print the error object on
stderr and exit with code 1.  The capability is called exactly once either
way. -/
def fetch (upstream : Upstream) (video_id : String) : ProcResult :=
  match tryBody upstream video_id with
  | Except.ok segments => ⟨[video_id], [JsonValue.arr segments], [], 0⟩
  | Except.error e => ⟨[video_id], [], [errorReport e], 1⟩

/-- The usage message printed when no identifier is supplied (line 23). -/
def usageMessage : String := "Usage: fetch_captions.py <video_id>"

/-- The `__main__` block (lines 21-25): `argv` is the full `sys.argv`
including the program name.  With fewer than two entries, print the usage
error on stderr and exit 1 without calling the capability; otherwise run
`fetch` on `sys.argv[1]`, ignoring any further arguments. -/
def main (upstream : Upstream) (argv : List String) : ProcResult :=
  match argv with
  | _ :: video_id :: _ => fetch upstream video_id
  | _ => ⟨[], [], [errorReport usageMessage], 1⟩

/-- The keys of a JSON object, in order; `[]` for non-objects. -/
def objKeys : JsonValue → List String
  | JsonValue.obj fields => fields.map Prod.fst
  | _ => []

/-- Look up a key in a JSON object (first match); `none` for non-objects. -/
def objLookup : JsonValue → String → Option JsonValue
  | JsonValue.obj fields, k => (fields.find? (fun p => p.1 == k)).map Prod.snd
  | _, _ => none

/-! ### Helper lemmas -/

theorem fetch_of_ok (u : Upstream) (vid : String) (segments : List JsonValue)
    (h : tryBody u vid = Except.ok segments) :
    fetch u vid = ⟨[vid], [JsonValue.arr segments], [], 0⟩ := by
  unfold fetch
  rw [h]

theorem fetch_of_error (u : Upstream) (vid m : String)
    (h : tryBody u vid = Except.error m) :
    fetch u vid = ⟨[vid], [], [errorReport m], 1⟩ := by
  unfold fetch
  rw [h]

theorem tryBody_ok_iff (u : Upstream) (vid : String) (segments : List JsonValue) :
    tryBody u vid = Except.ok segments ↔
      ∃ snips, u vid = Except.ok ⟨snips, none⟩ ∧ segments = snips.map segJson := by
  unfold tryBody
  cases h : u vid with
  | error m => simp [Except.bind]
  | ok t =>
    obtain ⟨snips, iterr⟩ := t
    cases iterr with
    | none =>
      simp [Except.bind, buildSegments, FetchedTranscript.mk.injEq, eq_comm]
    | some m =>
      simp [Except.bind, buildSegments, FetchedTranscript.mk.injEq]

theorem tryBody_error_of_upstream_error (u : Upstream) (vid m : String)
    (h : u vid = Except.error m) : tryBody u vid = Except.error m := by
  unfold tryBody
  rw [h]
  rfl

theorem tryBody_error_of_iter_error (u : Upstream) (vid m : String)
    (snips : List TranscriptSnippet) (h : u vid = Except.ok ⟨snips, some m⟩) :
    tryBody u vid = Except.error m := by
  unfold tryBody
  rw [h]
  rfl

/-! ### Claim theorems -/

/-- Claim C1: for every successful fetch, stdout is exactly one printed
value, a JSON array with one element per upstream record in the same
order, each element being the object with exactly the three keys `start`,
`dur`, `text`, whose values are the record's start, duration and text. -/
theorem c1_success_output (u : Upstream) (vid : String)
    (snips : List TranscriptSnippet) (h : u vid = Except.ok ⟨snips, none⟩) :
    ∃ elems : List JsonValue,
      (fetch u vid).stdout = [JsonValue.arr elems] ∧
      elems.length = snips.length ∧
      ∀ (i : Nat) (hi : i < elems.length) (hi2 : i < snips.length),
        elems.get ⟨i, hi⟩ = JsonValue.obj
          [("start", JsonValue.num ((snips.get ⟨i, hi2⟩).start)),
           ("dur", JsonValue.num ((snips.get ⟨i, hi2⟩).duration)),
           ("text", JsonValue.str ((snips.get ⟨i, hi2⟩).text))] := by
  have ht : tryBody u vid = Except.ok (snips.map segJson) :=
    (tryBody_ok_iff u vid _).2 ⟨snips, h, rfl⟩
  refine ⟨snips.map segJson, by rw [fetch_of_ok u vid _ ht], by simp, ?_⟩
  intro i hi hi2
  simp [List.get_eq_getElem, List.getElem_map, segJson]

/-- The three records of the spec's concrete example. -/
def specExampleSnippets : List TranscriptSnippet :=
  [⟨0, 3/2, "a"⟩, ⟨3/2, 2, "b"⟩, ⟨7/2, 1, "c"⟩]

/-- An upstream capability returning the spec's concrete example for every
identifier. -/
def specExampleUpstream : Upstream := fun _ => Except.ok ⟨specExampleSnippets, none⟩

/-- Witness for C1 at the spec's concrete three-record example. -/
theorem c1_witness :
    specExampleUpstream "vid" = Except.ok ⟨specExampleSnippets, none⟩ ∧
    ∃ elems : List JsonValue,
      (fetch specExampleUpstream "vid").stdout = [JsonValue.arr elems] ∧
      elems.length = specExampleSnippets.length ∧
      ∀ (i : Nat) (hi : i < elems.length) (hi2 : i < specExampleSnippets.length),
        elems.get ⟨i, hi⟩ = JsonValue.obj
          [("start", JsonValue.num ((specExampleSnippets.get ⟨i, hi2⟩).start)),
           ("dur", JsonValue.num ((specExampleSnippets.get ⟨i, hi2⟩).duration)),
           ("text", JsonValue.str ((specExampleSnippets.get ⟨i, hi2⟩).text))] :=
  ⟨rfl, c1_success_output specExampleUpstream "vid" specExampleSnippets rfl⟩

/-- Claim C2: if the upstream transcript-retrieval call raises an exception
with message m, the process exits with status 1, writes exactly the JSON
object with single key `error` mapped to m to stderr, and writes nothing
to stdout. -/
theorem c2_upstream_exception_reported (u : Upstream) (vid m : String)
    (h : u vid = Except.error m) :
    (fetch u vid).exitCode = 1 ∧
      (fetch u vid).stderr = [JsonValue.obj [("error", JsonValue.str m)]] ∧
      (fetch u vid).stdout = [] := by
  rw [fetch_of_error u vid m (tryBody_error_of_upstream_error u vid m h)]
  exact ⟨rfl, rfl, rfl⟩

/-- Witness for C2 with the upstream exception message "No captions". -/
theorem c2_witness :
    (fun _ : String => (Except.error "No captions" : Except String FetchedTranscript)) "vid"
        = Except.error "No captions" ∧
    ((fetch (fun _ : String => (Except.error "No captions" : Except String FetchedTranscript))
        "vid").exitCode = 1 ∧
      (fetch (fun _ : String => (Except.error "No captions" : Except String FetchedTranscript))
        "vid").stderr = [JsonValue.obj [("error", JsonValue.str "No captions")]] ∧
      (fetch (fun _ : String => (Except.error "No captions" : Except String FetchedTranscript))
        "vid").stdout = []) :=
  ⟨rfl, c2_upstream_exception_reported _ "vid" "No captions" rfl⟩

/-- Claim C3: with fewer than two entries in argv (no video identifier
supplied), the process exits with status 1, writes the usage ErrorReport
to stderr, and never invokes the external capability. -/
theorem c3_missing_argument (u : Upstream) (argv : List String)
    (h : argv.length < 2) :
    (main u argv).exitCode = 1 ∧
      (main u argv).stderr = [errorReport usageMessage] ∧
      (main u argv).stdout = [] ∧
      (main u argv).calls = [] := by
  match argv with
  | [] => exact ⟨rfl, rfl, rfl, rfl⟩
  | [_] => exact ⟨rfl, rfl, rfl, rfl⟩
  | _ :: _ :: t =>
    simp only [List.length_cons] at h
    omega

/-- Witness for C3: program name only, no identifier. -/
theorem c3_witness :
    (["fetch_captions.py"] : List String).length < 2 ∧
    ((main (fun _ : String => (Except.error "unused" : Except String FetchedTranscript))
        ["fetch_captions.py"]).exitCode = 1 ∧
      (main (fun _ : String => (Except.error "unused" : Except String FetchedTranscript))
        ["fetch_captions.py"]).stderr = [errorReport usageMessage] ∧
      (main (fun _ : String => (Except.error "unused" : Except String FetchedTranscript))
        ["fetch_captions.py"]).stdout = [] ∧
      (main (fun _ : String => (Except.error "unused" : Except String FetchedTranscript))
        ["fetch_captions.py"]).calls = []) :=
  ⟨by decide, c3_missing_argument _ ["fetch_captions.py"] (by decide)⟩

/-- Claim C4: stdout is all-or-nothing: every invocation prints either
nothing or a single full JSON array on stdout; in particular an exception
raised while iterating the upstream records leaves stdout empty. -/
theorem c4_no_partial_stdout (u : Upstream) (argv : List String) :
    ((main u argv).stdout = [] ∨
      ∃ elems, (main u argv).stdout = [JsonValue.arr elems]) ∧
    ∀ (vid m : String) (snips : List TranscriptSnippet),
      u vid = Except.ok ⟨snips, some m⟩ → (fetch u vid).stdout = [] := by
  constructor
  · match argv with
    | [] => exact Or.inl rfl
    | [_] => exact Or.inl rfl
    | _ :: vid :: _ =>
      show (fetch u vid).stdout = [] ∨ ∃ elems, (fetch u vid).stdout = [JsonValue.arr elems]
      cases ht : tryBody u vid with
      | ok segs => exact Or.inr ⟨segs, by rw [fetch_of_ok u vid segs ht]⟩
      | error m => exact Or.inl (by rw [fetch_of_error u vid m ht])
  · intro vid m snips h
    rw [fetch_of_error u vid m (tryBody_error_of_iter_error u vid m snips h)]

/-- Witness for C4: an upstream whose transcript raises mid-iteration
leaves stdout empty. -/
theorem c4_witness :
    (fun _ : String =>
        (Except.ok (⟨[⟨0, 1, "a"⟩], some "boom"⟩ : FetchedTranscript) :
          Except String FetchedTranscript)) "vid"
      = Except.ok ⟨[⟨0, 1, "a"⟩], some "boom"⟩ ∧
    (fetch (fun _ : String =>
        (Except.ok (⟨[⟨0, 1, "a"⟩], some "boom"⟩ : FetchedTranscript) :
          Except String FetchedTranscript)) "vid").stdout = [] :=
  ⟨rfl, (c4_no_partial_stdout _ ["prog", "vid"]).2 "vid" "boom" [⟨0, 1, "a"⟩] rfl⟩

theorem main_nil (u : Upstream) :
    main u [] = ⟨[], [], [errorReport usageMessage], 1⟩ := rfl

theorem main_single (u : Upstream) (p : String) :
    main u [p] = ⟨[], [], [errorReport usageMessage], 1⟩ := rfl

theorem main_cons (u : Upstream) (p vid : String) (rest : List String) :
    main u (p :: vid :: rest) = fetch u vid := rfl

theorem fetch_outcome (u : Upstream) (vid : String) :
    ((fetch u vid).exitCode = 0 ∧ (fetch u vid).stderr = [] ∧
      ∃ elems, (fetch u vid).stdout = [JsonValue.arr elems] ∧
        ∀ e ∈ elems, objKeys e = ["start", "dur", "text"]) ∨
    ((fetch u vid).exitCode = 1 ∧ (fetch u vid).stdout = [] ∧
      ∃ m, (fetch u vid).stderr = [errorReport m]) := by
  cases ht : tryBody u vid with
  | ok segs =>
    left
    rw [fetch_of_ok u vid segs ht]
    obtain ⟨snips, -, rfl⟩ := (tryBody_ok_iff u vid segs).1 ht
    refine ⟨rfl, rfl, snips.map segJson, rfl, ?_⟩
    intro e he
    obtain ⟨s, -, rfl⟩ := List.mem_map.1 he
    rfl
  | error m =>
    right
    rw [fetch_of_error u vid m ht]
    exact ⟨rfl, rfl, m, rfl⟩

/-- Claim C5: every invocation produces exactly one of the two outcomes:
a successful segment array on stdout (exit 0, empty stderr, no `error`
key anywhere in the output objects) or an ErrorReport on stderr (exit 1,
empty stdout, the single key being `error` and none of `start`, `dur`,
`text`). -/
theorem c5_exactly_one_outcome (u : Upstream) (argv : List String) :
    ((main u argv).exitCode = 0 ∧ (main u argv).stderr = [] ∧
      ∃ elems, (main u argv).stdout = [JsonValue.arr elems] ∧
        ∀ e ∈ elems, objKeys e = ["start", "dur", "text"] ∧ "error" ∉ objKeys e) ∨
    ((main u argv).exitCode = 1 ∧ (main u argv).stdout = [] ∧
      ∃ m, (main u argv).stderr = [errorReport m] ∧
        objKeys (errorReport m) = ["error"] ∧
        "start" ∉ objKeys (errorReport m) ∧ "dur" ∉ objKeys (errorReport m) ∧
        "text" ∉ objKeys (errorReport m)) := by
  have herrkeys : ∀ m : String, objKeys (errorReport m) = ["error"] ∧
      "start" ∉ objKeys (errorReport m) ∧ "dur" ∉ objKeys (errorReport m) ∧
      "text" ∉ objKeys (errorReport m) := by
    intro m
    refine ⟨rfl, ?_, ?_, ?_⟩ <;> · show _ ∉ (["error"] : List String); decide
  match argv with
  | [] => exact Or.inr ⟨rfl, rfl, usageMessage, rfl, herrkeys usageMessage⟩
  | [_] => exact Or.inr ⟨rfl, rfl, usageMessage, rfl, herrkeys usageMessage⟩
  | _ :: vid :: _ =>
    rcases fetch_outcome u vid with ⟨h0, hs, elems, ho, hk⟩ | ⟨h1, ho, m, hs⟩
    · exact Or.inl ⟨h0, hs, elems, ho, fun e he =>
        ⟨hk e he, by rw [hk e he]; decide⟩⟩
    · exact Or.inr ⟨h1, ho, m, hs, herrkeys m⟩

/-- Claim C6: the exit code is always 0 or 1; it is 0 exactly when no
error was written to stderr; a missing argument exits 1, and an upstream
exception exits 1. -/
theorem c6_exit_codes (u : Upstream) (argv : List String) :
    ((main u argv).exitCode = 0 ∨ (main u argv).exitCode = 1) ∧
    ((main u argv).exitCode = 0 ↔ (main u argv).stderr = []) ∧
    (argv.length < 2 → (main u argv).exitCode = 1) ∧
    (∀ (p vid : String) (rest : List String) (m : String),
      argv = p :: vid :: rest → u vid = Except.error m →
        (main u argv).exitCode = 1) := by
  have hmain : ((main u argv).exitCode = 0 ∨ (main u argv).exitCode = 1) ∧
      ((main u argv).exitCode = 0 ↔ (main u argv).stderr = []) := by
    match argv with
    | [] =>
      rw [main_nil]
      exact ⟨Or.inr rfl, by simp⟩
    | [p] =>
      rw [main_single]
      exact ⟨Or.inr rfl, by simp⟩
    | p :: vid :: rest =>
      rw [main_cons]
      cases ht : tryBody u vid with
      | ok segs =>
        rw [fetch_of_ok u vid segs ht]
        exact ⟨Or.inl rfl, by simp⟩
      | error m =>
        rw [fetch_of_error u vid m ht]
        exact ⟨Or.inr rfl, by simp⟩
  refine ⟨hmain.1, hmain.2, ?_, ?_⟩
  · intro h
    match argv, h with
    | [], _ => rfl
    | [_], _ => rfl
  · intro p vid rest m hargv hu
    subst hargv
    show (fetch u vid).exitCode = 1
    rw [fetch_of_error u vid m (tryBody_error_of_upstream_error u vid m hu)]

/-- Witness for C6: missing argument exits 1, and an upstream exception
exits 1. -/
theorem c6_witness :
    (["fetch_captions.py"] : List String).length < 2 ∧
    (main (fun _ : String => (Except.error "net down" : Except String FetchedTranscript))
      ["fetch_captions.py"]).exitCode = 1 ∧
    (main (fun _ : String => (Except.error "net down" : Except String FetchedTranscript))
      ["fetch_captions.py", "vid"]).exitCode = 1 :=
  ⟨by decide,
   (c6_exit_codes (fun _ : String => (Except.error "net down" : Except String FetchedTranscript))
      ["fetch_captions.py"]).2.2.1 (by decide),
   (c6_exit_codes (fun _ : String => (Except.error "net down" : Except String FetchedTranscript))
      ["fetch_captions.py", "vid"]).2.2.2 "fetch_captions.py" "vid" [] "net down" rfl rfl⟩

/-- Claim C7: every invocation that reaches the fetch step calls the
external transcript-retrieval capability exactly once, with the supplied
identifier, whatever the outcome. -/
theorem c7_exactly_one_call (u : Upstream) (p vid : String) (rest : List String) :
    (main u (p :: vid :: rest)).calls = [vid] ∧
    (main u (p :: vid :: rest)).calls.length = 1 := by
  show (fetch u vid).calls = [vid] ∧ (fetch u vid).calls.length = 1
  cases ht : tryBody u vid with
  | ok segs => rw [fetch_of_ok u vid segs ht]; exact ⟨rfl, rfl⟩
  | error m => rw [fetch_of_error u vid m ht]; exact ⟨rfl, rfl⟩

/-- Claim C8 as stated is false on the code: the script copies `start` and
`duration` through without validation, so an upstream record with a
negative start yields an output segment with a negative `start`. -/
theorem c8_counterexample :
    ∃ (u : Upstream) (vid : String) (elems : List JsonValue)
      (e : JsonValue) (q : Rat),
      (fetch u vid).stdout = [JsonValue.arr elems] ∧ e ∈ elems ∧
      objLookup e "start" = some (JsonValue.num q) ∧ q < 0 := by
  refine ⟨fun _ => Except.ok ⟨[⟨-1, 2, "x"⟩], none⟩, "vid",
    [segJson ⟨-1, 2, "x"⟩], segJson ⟨-1, 2, "x"⟩, -1, rfl,
    List.mem_singleton.2 rfl, rfl, by norm_num⟩

/-- Claim C8, amended: the output `start` and `dur` values are copied
exactly from the upstream records, so whenever every upstream record has
nonnegative start and duration, every output segment has `start` ≥ 0 and
`dur` ≥ 0. -/
theorem c8_nonneg_propagates (u : Upstream) (vid : String)
    (snips : List TranscriptSnippet) (h : u vid = Except.ok ⟨snips, none⟩)
    (hnn : ∀ s ∈ snips, 0 ≤ s.start ∧ 0 ≤ s.duration) :
    ∃ elems, (fetch u vid).stdout = [JsonValue.arr elems] ∧
      ∀ e ∈ elems, ∃ qs qd : Rat,
        objLookup e "start" = some (JsonValue.num qs) ∧
        objLookup e "dur" = some (JsonValue.num qd) ∧ 0 ≤ qs ∧ 0 ≤ qd := by
  have ht : tryBody u vid = Except.ok (snips.map segJson) :=
    (tryBody_ok_iff u vid _).2 ⟨snips, h, rfl⟩
  refine ⟨snips.map segJson, by rw [fetch_of_ok u vid _ ht], ?_⟩
  intro e he
  obtain ⟨s, hs, rfl⟩ := List.mem_map.1 he
  exact ⟨s.start, s.duration, rfl, rfl, (hnn s hs).1, (hnn s hs).2⟩

/-- Witness for the amended C8 at a concrete nonnegative transcript. -/
theorem c8_witness :
    (fun _ : String =>
        (Except.ok (⟨[⟨1, 2, "a"⟩], none⟩ : FetchedTranscript) :
          Except String FetchedTranscript)) "vid"
      = Except.ok ⟨[⟨1, 2, "a"⟩], none⟩ ∧
    (∀ s ∈ ([⟨1, 2, "a"⟩] : List TranscriptSnippet), 0 ≤ s.start ∧ 0 ≤ s.duration) ∧
    ∃ elems,
      (fetch (fun _ : String =>
          (Except.ok (⟨[⟨1, 2, "a"⟩], none⟩ : FetchedTranscript) :
            Except String FetchedTranscript)) "vid").stdout = [JsonValue.arr elems] ∧
      ∀ e ∈ elems, ∃ qs qd : Rat,
        objLookup e "start" = some (JsonValue.num qs) ∧
        objLookup e "dur" = some (JsonValue.num qd) ∧ 0 ≤ qs ∧ 0 ≤ qd := by
  have hnn : ∀ s ∈ ([⟨1, 2, "a"⟩] : List TranscriptSnippet),
      0 ≤ s.start ∧ 0 ≤ s.duration := by
    intro s hs
    rw [List.mem_singleton] at hs
    subst hs
    exact ⟨by norm_num, by norm_num⟩
  exact ⟨rfl, hnn, c8_nonneg_propagates _ "vid" [⟨1, 2, "a"⟩] rfl hnn⟩

/-- Claim C9: any exception anywhere inside the try block — the upstream
call itself, or iteration over the returned records in the list
comprehension — is caught and reported as an ErrorReport on stderr with
exit status 1 and empty stdout. -/
theorem c9_pipeline_exception_caught (u : Upstream) (vid m : String)
    (h : u vid = Except.error m ∨
      ∃ snips, u vid = Except.ok ⟨snips, some m⟩) :
    (fetch u vid).exitCode = 1 ∧
      (fetch u vid).stderr = [errorReport m] ∧
      (fetch u vid).stdout = [] := by
  have ht : tryBody u vid = Except.error m := by
    rcases h with h | ⟨snips, h⟩
    · exact tryBody_error_of_upstream_error u vid m h
    · exact tryBody_error_of_iter_error u vid m snips h
  rw [fetch_of_error u vid m ht]
  exact ⟨rfl, rfl, rfl⟩

/-- Witness for C9: an exception raised while iterating the records (not
by the upstream call itself) is reported the same way. -/
theorem c9_witness :
    ((fun _ : String =>
        (Except.ok (⟨[⟨0, 1, "a"⟩], some "iter failed"⟩ : FetchedTranscript) :
          Except String FetchedTranscript)) "vid" = Except.error "iter failed" ∨
      ∃ snips, (fun _ : String =>
        (Except.ok (⟨[⟨0, 1, "a"⟩], some "iter failed"⟩ : FetchedTranscript) :
          Except String FetchedTranscript)) "vid" = Except.ok ⟨snips, some "iter failed"⟩) ∧
    ((fetch (fun _ : String =>
        (Except.ok (⟨[⟨0, 1, "a"⟩], some "iter failed"⟩ : FetchedTranscript) :
          Except String FetchedTranscript)) "vid").exitCode = 1 ∧
      (fetch (fun _ : String =>
        (Except.ok (⟨[⟨0, 1, "a"⟩], some "iter failed"⟩ : FetchedTranscript) :
          Except String FetchedTranscript)) "vid").stderr = [errorReport "iter failed"] ∧
      (fetch (fun _ : String =>
        (Except.ok (⟨[⟨0, 1, "a"⟩], some "iter failed"⟩ : FetchedTranscript) :
          Except String FetchedTranscript)) "vid").stdout = []) :=
  ⟨Or.inr ⟨[⟨0, 1, "a"⟩], rfl⟩,
   c9_pipeline_exception_caught _ "vid" "iter failed" (Or.inr ⟨[⟨0, 1, "a"⟩], rfl⟩)⟩

/-- Claim C10: with two or more command-line arguments only the first is
used as the video identifier: the invocation behaves exactly like `fetch`
on that identifier, and any further arguments have no effect on the
result. -/
theorem c10_extra_arguments_ignored (u : Upstream) (p vid : String)
    (rest rest2 : List String) :
    main u (p :: vid :: rest) = fetch u vid ∧
    main u (p :: vid :: rest) = main u (p :: vid :: rest2) :=
  ⟨rfl, rfl⟩

end FetchCaptions
